import Mathlib

set_option autoImplicit false

/-!
Verification development for the dwarfsql DWARF extraction engine
(`dwarf_session.cpp`, `dwarf_tables.cpp`).

The engine walks libdwarf DIE trees and flattens them into relational
records.  We embed the pure content of that code: a `Die` carries the
values that the libdwarf accessor helpers (`get_die_string`,
`get_die_ref`, `get_die_flag`, ...) would return for the attributes the
extractors read; a `DwarfEnv` is the offset-indexed debug section used
by `dwarf_offdie_b`; `DieTree`/`preorder` embed `traverse_die`; and each
extractor is the fold of its visitor closure over the pre-order event
stream.
-/

namespace DwarfSql

/-! ### DWARF constants (values from libdwarf dwarf.h) -/

def DW_TAG_array_type : Nat := 0x01

def DW_TAG_class_type : Nat := 0x02

def DW_TAG_formal_parameter : Nat := 0x05

def DW_TAG_lexical_block : Nat := 0x0b

def DW_TAG_member : Nat := 0x0d

def DW_TAG_pointer_type : Nat := 0x0f

def DW_TAG_compile_unit : Nat := 0x11

def DW_TAG_reference_type : Nat := 0x10

def DW_TAG_structure_type : Nat := 0x13

def DW_TAG_union_type : Nat := 0x17

def DW_TAG_base_type : Nat := 0x24

def DW_TAG_const_type : Nat := 0x26

def DW_TAG_subprogram : Nat := 0x2e

def DW_TAG_variable : Nat := 0x34

def DW_TAG_volatile_type : Nat := 0x35

def DW_TAG_restrict_type : Nat := 0x37

def DW_TAG_rvalue_reference_type : Nat := 0x42

def DW_TAG_call_site : Nat := 0x48

def DW_TAG_GNU_call_site : Nat := 0x4109

def DW_INL_declared_not_inlined : Nat := 2

def DW_INL_declared_inlined : Nat := 3

/-- Modulus of the C++ `uint64_t` arithmetic used for addresses. -/
def U64 : Nat := 2 ^ 64

/-! ### Attribute values as seen through the libdwarf accessors -/

/-- The `DW_AT_high_pc` attribute as inspected by `get_high_pc`: either
the address form (`DW_FORM_addr`) or any other (constant) form, paired
with the result of the corresponding decode call (`dwarf_formaddr`
resp. `dwarf_formudata`); `none` inside models a decode failure. -/
inductive HighPcAttr where
  | addrForm (decoded : Option Nat)
  | otherForm (decoded : Option Nat)
deriving DecidableEq

/-- A location attribute as inspected by `get_location_string`:
an expression/block form with its decoded bytes, a `DW_FORM_sec_offset`
location list, or any other form (which yields the empty preview). -/
inductive LocAttr where
  | exprBlock (bytes : List Nat)
  | secOffset
  | otherLoc
deriving DecidableEq

/-- One DIE.  Each field holds the value the corresponding helper in
`dwarf_session.cpp` returns for it: string attributes default to `""`
(`get_die_string`), reference attributes to `0` (`get_die_ref` returns
0 when the attribute is absent or both reference decodes fail), flags
to `false` (`get_die_flag`), and unsigned attributes read with
`get_die_unsigned(..., 0)` to `0`.  `inline_attr` is the decoded
`DW_AT_inline` value (`none` = attribute absent or `dwarf_formudata`
failed, in which case `get_functions` leaves `is_declaration` alone). -/
structure Die where
  offset : Nat := 0
  tag : Nat := 0
  name : String := ""
  linkage_name : String := ""
  mips_linkage_name : String := ""
  type_ref : Nat := 0
  call_origin : Nat := 0
  abstract_origin : Nat := 0
  low_pc : Nat := 0
  high_pc_attr : Option HighPcAttr := none
  decl_line : Int := 0
  byte_size : Int := -1
  is_external : Bool := false
  is_declaration : Bool := false
  inline_attr : Option Nat := none
  call_return_pc : Nat := 0
  call_line : Int := 0
  is_tail_call : Bool := false
  location_attr : Option LocAttr := none
deriving DecidableEq

/-- The debug-info section as an offset-indexed association list; this
is what `dwarf_offdie_b(dbg, off, ...)` consults when the extractors
follow a cross reference. -/
abbrev DwarfEnv : Type := List (Nat × Die)

/-- `dwarf_offdie_b`: resolve a global offset to a DIE, `none` when the
offset does not name a DIE. -/
def lookupDie : DwarfEnv → Nat → Option Die
  | [], _ => none
  | (o, d) :: rest, off => if off = o then some d else lookupDie rest off

theorem lookupDie_mem {env : DwarfEnv} {off : Nat} {d : Die}
    (h : lookupDie env off = some d) : (off, d) ∈ env := by
  induction env with
  | nil => simp [lookupDie] at h
  | cons p rest ih =>
    obtain ⟨o, d'⟩ := p
    by_cases ho : off = o
    · subst ho
      simp [lookupDie] at h
      subst h
      exact List.mem_cons_self _ _
    · simp [lookupDie, ho] at h
      exact List.mem_cons_of_mem _ (ih h)

/-! ### get_high_pc -/

/-- `get_high_pc(dbg, die, low_pc)`: absent attribute yields 0; the
address form yields the decoded address (0 on decode failure); any
other form is treated as an unsigned offset from `low_pc` (uint64
addition), again 0 on decode failure. -/
def get_high_pc (attr : Option HighPcAttr) (low_pc : Nat) : Nat :=
  match attr with
  | none => 0
  | some (.addrForm dec) =>
    match dec with
    | some a => a
    | none => 0
  | some (.otherForm dec) =>
    match dec with
    | some v => (low_pc + v) % U64
    | none => 0

/-! ### get_location_string -/

/-- Lowercase hexadecimal digit, as produced by `snprintf("%02x")`. -/
def hexDigit (n : Nat) : Char :=
  if n < 10 then Char.ofNat (48 + n) else Char.ofNat (87 + n)

/-- One byte rendered as two lowercase hex characters. -/
def byteToHex (b : Nat) : String :=
  String.mk [hexDigit (b / 16 % 16), hexDigit (b % 16)]

/-- `get_location_string`: expression/block forms render at most 32
bytes as lowercase hex with a `"..."` marker when truncated; a section
offset (location list) yields the literal marker; anything else (or an
absent attribute) yields the empty string. -/
def get_location_string (attr : Option LocAttr) : String :=
  match attr with
  | none => ""
  | some (.exprBlock bytes) =>
    String.join ((bytes.take 32).map byteToHex)
      ++ if bytes.length > 32 then "..." else ""
  | some .secOffset => "[loclist]"
  | some .otherLoc => ""

/-! ### get_type_name -/

/-- The switch inside `get_type_name`'s while loop: for a recognized
type-modifier tag, the strings prepended to the accumulated prefix and
suffix; `none` for any other tag (the `default:` case). -/
def modifierAffix (tag : Nat) : Option (String × String) :=
  if tag = DW_TAG_pointer_type then some ("", "*")
  else if tag = DW_TAG_reference_type then some ("", "&")
  else if tag = DW_TAG_rvalue_reference_type then some ("", "&&")
  else if tag = DW_TAG_const_type then some ("const ", "")
  else if tag = DW_TAG_volatile_type then some ("volatile ", "")
  else if tag = DW_TAG_restrict_type then some ("restrict ", "")
  else if tag = DW_TAG_array_type then some ("", "[]")
  else none

/-- The reference-chasing loop of `get_type_name`, indexed by fuel.
One fuel unit is one resolution of an offset to a DIE (`dwarf_offdie_b`
plus the loop body); `none` means the fuel ran out, so the C++ loop,
which has no bound, has not produced an answer within that many steps.
The loop returns the accumulated name as soon as the current DIE is
named, wraps `"<anonymous>"` for an unrecognized tag, `"void"` when the
modifier chain ends without a further reference, and `"<unknown>"` when
an offset fails to resolve. -/
def typeNameGo (env : DwarfEnv) : Nat → String → String → Nat → Option String
  | 0, _, _, _ => none
  | fuel + 1, pre, suf, off =>
    match lookupDie env off with
    | none => some (pre ++ "<unknown>" ++ suf)
    | some d =>
      if d.name ≠ "" then some (pre ++ d.name ++ suf)
      else
        match modifierAffix d.tag with
        | none => some (pre ++ "<anonymous>" ++ suf)
        | some m =>
          let pre' := m.1 ++ pre
          let suf' := m.2 ++ suf
          if d.type_ref = 0 then some (pre' ++ "void" ++ suf')
          else typeNameGo env fuel pre' suf' d.type_ref

/-- `get_type_name(dbg, die)`: reads the given DIE's own `DW_AT_type`
reference; no reference at all yields plain `"void"`, otherwise the
chain-following loop runs from the referenced offset. -/
def get_type_name (env : DwarfEnv) (fuel : Nat) (d : Die) : Option String :=
  if d.type_ref = 0 then some "void"
  else typeNameGo env fuel "" "" d.type_ref

/-- The C++ `get_type_name` call on `d` never returns: no finite number
of loop iterations completes. -/
def typeNameDiverges (env : DwarfEnv) (d : Die) : Prop :=
  ∀ fuel, get_type_name env fuel d = none

/-- The C++ `get_type_name` call on `d` returns: some finite number of
loop iterations produces a string. -/
def typeNameTerminates (env : DwarfEnv) (d : Die) : Prop :=
  ∃ fuel s, get_type_name env fuel d = some s

/-! ### Records extracted from DIEs (structs of dwarf_session.hpp) -/

/-- `DieInfo` of dwarf_session.hpp, with its C++ member defaults.  Note
that it has `is_declaration` but no separate inline flag. -/
structure DieInfo where
  offset : Nat := 0
  tag : Nat := 0
  name : String := ""
  linkage_name : String := ""
  low_pc : Nat := 0
  high_pc : Nat := 0
  byte_size : Int := -1
  decl_file : Int := -1
  decl_line : Int := -1
  is_external : Bool := false
  is_declaration : Bool := false
deriving DecidableEq

/-- `CallInfo` of dwarf_session.hpp. -/
structure CallInfo where
  caller_offset : Nat := 0
  caller_name : String := ""
  callee_offset : Nat := 0
  callee_name : String := ""
  call_pc : Nat := 0
  call_line : Int := 0
  is_tail_call : Bool := false
deriving DecidableEq

/-- `LocalVarInfo` of dwarf_session.hpp.  The `type` field is the
result of the (unbounded) `get_type_name` call, so in the embedding it
is an `Option String`: `none` marks the case in which that call never
returns and the record is in fact never built. -/
structure LocalVarInfo where
  offset : Nat := 0
  func_offset : Nat := 0
  name : String := ""
  type : Option String := none
  location : String := ""
  decl_line : Int := 0
  scope_low_pc : Nat := 0
  scope_high_pc : Nat := 0
deriving DecidableEq

/-! ### The tree walker (traverse_die) -/

/-- One DIE subtree as presented by libdwarf (`dwarf_child` /
`dwarf_siblingof_b`). -/
inductive DieTree where
  | node (die : Die) (children : List DieTree)

/-- The DIE at the root of a subtree; `get_die_offset` of a unit's root
is what the extractors compare against their `cu_filter`. -/
def rootDie : DieTree → Die
  | .node d _ => d

mutual

/-- `traverse_die(dbg, die, depth, cb)` invokes the callback on every
node in depth-first pre-order, children at `depth + 1`; the event list
records each `(die, depth)` callback invocation in order. -/
def preorder : DieTree → Nat → List (Die × Nat)
  | .node d cs, depth => (d, depth) :: preorderForest cs (depth + 1)

/-- Pre-order over a child list, left to right. -/
def preorderForest : List DieTree → Nat → List (Die × Nat)
  | [], _ => []
  | t :: ts, depth => preorder t depth ++ preorderForest ts depth

end

/-! ### get_functions -/

/-- The `DieInfo` filled in by the `get_functions` visitor for one
`DW_TAG_subprogram` DIE.  The declaration flag is first read from
`DW_AT_declaration`; then, when `DW_AT_inline` is present and decodes,
the same `is_declaration` member is overwritten with whether the value
is one of the two declared-inline designations. -/
def mkFunctionInfo (d : Die) : DieInfo :=
  { offset := d.offset
    tag := d.tag
    name := d.name
    linkage_name :=
      if d.linkage_name = "" then d.mips_linkage_name else d.linkage_name
    low_pc := d.low_pc
    high_pc := get_high_pc d.high_pc_attr d.low_pc
    decl_line := d.decl_line
    is_external := d.is_external
    is_declaration :=
      match d.inline_attr with
      | some v =>
        decide (v = DW_INL_declared_inlined ∨ v = DW_INL_declared_not_inlined)
      | none => d.is_declaration }

/-- The `get_functions` visitor over one unit's event stream: every
`DW_TAG_subprogram` DIE yields a record. -/
def functionsGo (evs : List (Die × Nat)) : List DieInfo :=
  evs.filterMap fun e =>
    if e.1.tag = DW_TAG_subprogram then some (mkFunctionInfo e.1) else none

/-! ### get_variables -/

/-- The record built by the `get_variables` visitor for a variable or
formal-parameter DIE: offset, tag, name, declaration line and external
flag only (no type name, no location, no function offset — `DieInfo`
has no field for one and none is computed). -/
def mkVariableInfo (d : Die) : DieInfo :=
  { offset := d.offset
    tag := d.tag
    name := d.name
    decl_line := d.decl_line
    is_external := d.is_external }

/-- `current_func` evolution of a visitor that assigns it the offset of
every `DW_TAG_subprogram` DIE it sees: the result is the offset of the
most recently visited function DIE, or the initial value when the
stream holds none. -/
def lastFunc : Nat → List (Die × Nat) → Nat
  | cur, [] => cur
  | cur, (d, _) :: rest =>
    lastFunc (if d.tag = DW_TAG_subprogram then d.offset else cur) rest

/-- The record emissions of the `get_variables` visitor: starting from
`current_func = cur`, a variable or formal-parameter DIE is emitted
when no function filter is requested or `current_func` (as updated by
this very event stream) equals the filter.  Together with `lastFunc`
(the state evolution) this is the visitor closure of `get_variables`. -/
def varsGo (func_filter : Int) : Nat → List (Die × Nat) → List DieInfo
  | _, [] => []
  | cur, (d, _) :: rest =>
    let cur' := if d.tag = DW_TAG_subprogram then d.offset else cur
    if (d.tag = DW_TAG_variable ∨ d.tag = DW_TAG_formal_parameter) ∧
        (func_filter < 0 ∨ (cur' : Int) = func_filter) then
      mkVariableInfo d :: varsGo func_filter cur' rest
    else varsGo func_filter cur' rest

/-- The compilation-unit loop of `get_variables`: `current_func` is
initialized to 0 once, before the loop, and threads through all units;
a unit skipped by the `cu_filter` does not run the walker and so does
not touch `current_func`. -/
def variablesLoop (cu_filter func_filter : Int) : Nat → List DieTree → List DieInfo
  | _, [] => []
  | cur, t :: ts =>
    if cu_filter ≥ 0 ∧ ((rootDie t).offset : Int) ≠ cu_filter then
      variablesLoop cu_filter func_filter cur ts
    else
      varsGo func_filter cur (preorder t 0)
        ++ variablesLoop cu_filter func_filter (lastFunc cur (preorder t 0)) ts

/-- `DwarfSession::get_variables(cu_filter, func_filter)`. -/
def get_variables (cu_filter func_filter : Int) (cus : List DieTree) : List DieInfo :=
  variablesLoop cu_filter func_filter 0 cus

/-! ### get_structs and the structs / struct_members tables -/

/-- The `DieInfo` built by the `get_structs` visitor. -/
def mkStructInfo (d : Die) : DieInfo :=
  { offset := d.offset
    tag := d.tag
    name := d.name
    byte_size := d.byte_size
    is_declaration := d.is_declaration }

/-- The `get_structs` visitor: structure, class and union tags only. -/
def structsGo (evs : List (Die × Nat)) : List DieInfo :=
  evs.filterMap fun e =>
    if e.1.tag = DW_TAG_structure_type ∨ e.1.tag = DW_TAG_class_type ∨
        e.1.tag = DW_TAG_union_type then
      some (mkStructInfo e.1)
    else none

/-- `DwarfSession::get_structs(cu_filter)`: the walker runs on every
unit passing the filter. -/
def get_structs (cu_filter : Int) (cus : List DieTree) : List DieInfo :=
  (cus.map fun t =>
    if cu_filter ≥ 0 ∧ ((rootDie t).offset : Int) ≠ cu_filter then []
    else structsGo (preorder t 0)).flatten

/-- `StructRow` of dwarf_tables.hpp, without `cu_id` (the cache builder
never assigns `cu_id`, leaving it uninitialized). -/
structure StructRow where
  id : Nat := 0
  name : String := ""
  kind : String := ""
  byte_size : Int := -1
  is_declaration : Bool := false
deriving DecidableEq

/-- The `kind` switch of the structs cache builder, including its
`default:` branch, which also yields `"struct"`. -/
def structKindOfTag (tag : Nat) : String :=
  if tag = DW_TAG_structure_type then "struct"
  else if tag = DW_TAG_class_type then "class"
  else if tag = DW_TAG_union_type then "union"
  else "struct"

/-- One structs-table row as the cache builder fills it from a
`get_structs` record. -/
def mkStructRow (s : DieInfo) : StructRow :=
  { id := s.offset
    name := s.name
    kind := structKindOfTag s.tag
    byte_size := s.byte_size
    is_declaration := s.is_declaration }

/-- `StructMemberRow` of dwarf_tables.hpp (the cache builder never
assigns `type`, which stays the empty string). -/
structure StructMemberRow where
  id : Nat := 0
  struct_id : Nat := 0
  name : String := ""
  type : String := ""
  offset : Nat := 0
  bit_offset : Int := 0
  bit_size : Int := 0
deriving DecidableEq

/-- One struct_members row: `m.low_pc` carries the member's byte
offset, `m.decl_line` the bit offset and `m.byte_size` the bit size,
exactly as `get_struct_members` overloaded those `DieInfo` fields. -/
def mkStructMemberRow (structOffset : Nat) (m : DieInfo) : StructMemberRow :=
  { id := m.offset
    struct_id := structOffset
    name := m.name
    offset := m.low_pc
    bit_offset := m.decl_line
    bit_size := m.byte_size }

/-- The struct_members cache builder: for every struct record produced
by `get_structs`, declaration-only structs are skipped outright;
otherwise `get_struct_members(s.offset)` (abstracted as `memberOf`)
supplies the member records turned into rows keyed by `s.offset`. -/
def structMembersRows (structs : List DieInfo) (memberOf : Nat → List DieInfo) :
    List StructMemberRow :=
  structs.flatMap fun s =>
    if s.is_declaration then []
    else (memberOf s.offset).map (mkStructMemberRow s.offset)

/-! ### The variables table -/

/-- `VariableRow` of dwarf_tables.hpp, restricted to the fields the
C++ row initializes deterministically: `type` and `location` are
`std::string`s that default to `""`; `cu_id`, `func_id` and
`is_parameter` are scalars the cache builder never assigns (they stay
uninitialized in C++) and are omitted here. -/
structure VariableRow where
  id : Nat := 0
  name : String := ""
  type : String := ""
  location : String := ""
  line : Int := 0
deriving DecidableEq

/-- One variables-table row as the cache builder fills it from a
`get_variables` record: id, name and line only. -/
def mkVariableRow (v : DieInfo) : VariableRow :=
  { id := v.offset
    name := v.name
    line := v.decl_line }

/-- The variables-table cache builder applied to the `get_variables`
output (the C++ builder calls `session.get_variables()` with both
filters defaulted to −1). -/
def variablesRows (cus : List DieTree) : List VariableRow :=
  (get_variables (-1) (-1) cus).map mkVariableRow

/-! ### get_calls -/

/-- The `CallInfo` built by the `get_calls` visitor for a call-site DIE
given the tracked `(current_func, current_func_name)`: the callee comes
from `DW_AT_call_origin`, falling back to `DW_AT_abstract_origin`; when
neither resolves (both references are 0) the callee offset and name
stay at their defaults 0 and `""`.  The call pc prefers
`DW_AT_call_return_pc` and falls back to `DW_AT_low_pc`. -/
def mkCallInfo (env : DwarfEnv) (cur : Nat × String) (d : Die) : CallInfo :=
  let calleeOff := if d.call_origin ≠ 0 then d.call_origin else d.abstract_origin
  let callee : Nat × String :=
    if calleeOff ≠ 0 then
      (calleeOff,
        match lookupDie env calleeOff with
        | some cd => cd.name
        | none => "")
    else (0, "")
  let pc := if d.call_return_pc ≠ 0 then d.call_return_pc else d.low_pc
  { caller_offset := cur.1
    caller_name := cur.2
    callee_offset := callee.1
    callee_name := callee.2
    call_pc := pc
    call_line := d.call_line
    is_tail_call := d.is_tail_call }

/-- `(current_func, current_func_name)` evolution of the `get_calls`
visitor: both are set on every `DW_TAG_subprogram` DIE. -/
def callsState : Nat × String → List (Die × Nat) → Nat × String
  | cur, [] => cur
  | cur, (d, _) :: rest =>
    callsState (if d.tag = DW_TAG_subprogram then (d.offset, d.name) else cur) rest

/-- The `get_calls` visitor over one unit's event stream: subprogram
DIEs update the tracked caller and emit nothing; `DW_TAG_call_site` and
`DW_TAG_GNU_call_site` DIEs always emit a record. -/
def callsGo (env : DwarfEnv) : Nat × String → List (Die × Nat) → List CallInfo
  | _, [] => []
  | cur, (d, _) :: rest =>
    if d.tag = DW_TAG_subprogram then callsGo env (d.offset, d.name) rest
    else if d.tag = DW_TAG_call_site ∨ d.tag = DW_TAG_GNU_call_site then
      mkCallInfo env cur d :: callsGo env cur rest
    else callsGo env cur rest

/-- `DwarfSession::get_calls()`: `current_func` and its name are
declared inside the compilation-unit loop, so each unit starts from
`(0, "")`. -/
def get_calls (env : DwarfEnv) (cus : List DieTree) : List CallInfo :=
  (cus.map fun t => callsGo env (0, "") (preorder t 0)).flatten

/-! ### get_local_variables -/

/-- Scope state of the `get_local_variables` visitor:
`(current_func, scope_low, scope_high)`.  A subprogram DIE sets all
three; a lexical block replaces the scope range only. -/
def lvState (st : Nat × Nat × Nat) (d : Die) : Nat × Nat × Nat :=
  if d.tag = DW_TAG_subprogram then
    (d.offset, d.low_pc, get_high_pc d.high_pc_attr d.low_pc)
  else (st.1, d.low_pc, get_high_pc d.high_pc_attr d.low_pc)

/-- The `LocalVarInfo` built for one variable DIE under scope state
`st`; `fuel` bounds the embedded `get_type_name` chain walk. -/
def mkLocalVarInfo (env : DwarfEnv) (fuel : Nat) (st : Nat × Nat × Nat)
    (d : Die) : LocalVarInfo :=
  { offset := d.offset
    func_offset := st.1
    name := d.name
    type := get_type_name env fuel d
    location := get_location_string d.location_attr
    decl_line := d.decl_line
    scope_low_pc := st.2.1
    scope_high_pc := st.2.2 }

/-- The `get_local_variables` visitor: subprogram and lexical-block
DIEs only update the scope state; a `DW_TAG_variable` DIE is emitted
when its depth exceeds 1 (depth 0 is the unit root, depth 1 its direct
children — unit-level globals) and the function filter matches. -/
def localVarsGo (env : DwarfEnv) (fuel : Nat) (func_filter : Int) :
    Nat × Nat × Nat → List (Die × Nat) → List LocalVarInfo
  | _, [] => []
  | st, (d, depth) :: rest =>
    if d.tag = DW_TAG_subprogram ∨ d.tag = DW_TAG_lexical_block then
      localVarsGo env fuel func_filter (lvState st d) rest
    else if d.tag = DW_TAG_variable ∧ 1 < depth ∧
        (func_filter < 0 ∨ (st.1 : Int) = func_filter) then
      mkLocalVarInfo env fuel st d :: localVarsGo env fuel func_filter st rest
    else localVarsGo env fuel func_filter st rest

/-- `DwarfSession::get_local_variables(func_filter)`: the scope state
is declared inside the unit loop, so each unit starts from
`(0, 0, 0)`. -/
def get_local_variables (env : DwarfEnv) (fuel : Nat) (func_filter : Int)
    (cus : List DieTree) : List LocalVarInfo :=
  (cus.map fun t => localVarsGo env fuel func_filter (0, 0, 0) (preorder t 0)).flatten

/-! ## C1: resolveTypeName on the pointer → const → int chain -/

/-- Scenario B debug data: an unnamed pointer DIE at offset 1 whose
type reference points to an unnamed const DIE at offset 2, whose type
reference points to the base type `"int"` at offset 3. -/
def scenarioBEnv : DwarfEnv :=
  [ (1, { offset := 1, tag := DW_TAG_pointer_type, type_ref := 2 }),
    (2, { offset := 2, tag := DW_TAG_const_type, type_ref := 3 }),
    (3, { offset := 3, tag := DW_TAG_base_type, name := "int" }) ]

/-- The pointer DIE of scenario B itself. -/
def scenarioBPointerDie : Die :=
  { offset := 1, tag := DW_TAG_pointer_type, type_ref := 2 }

/-- A DIE (e.g. a variable) whose `DW_AT_type` references the pointer
DIE of scenario B. -/
def scenarioBVarDie : Die :=
  { offset := 4, tag := DW_TAG_variable, name := "p", type_ref := 1 }

/-- C1 counterexample: `get_type_name` applied to the pointer DIE
itself starts by following that DIE's own `DW_AT_type` reference, so
the pointer contributes no `"*"`: the result is `"const int"`, not the
claimed `"const int*"`. -/
theorem c1_pointer_die_yields_const_int :
    get_type_name scenarioBEnv 8 scenarioBPointerDie = some "const int" ∧
      "const int" ≠ "const int*" :=
  ⟨rfl, by decide⟩

/-- C1 amended: the `"const int*"` of scenario B is produced when
`get_type_name` is applied to a DIE whose `DW_AT_type` references the
unnamed pointer DIE (the function resolves the given DIE's type
reference, not the given DIE); on the pointer DIE itself it yields
`"const int"`. -/
theorem c1_amended_scenario_b :
    get_type_name scenarioBEnv 8 scenarioBVarDie = some "const int*" ∧
      get_type_name scenarioBEnv 8 scenarioBPointerDie = some "const int" :=
  ⟨rfl, rfl⟩

/-! ## C2: termination of the get_type_name reference walk -/

/-- Malformed debug data: the unnamed const DIE at offset 1 has a type
reference pointing back to its own offset. -/
def cyclicEnv : DwarfEnv :=
  [ (1, { offset := 1, tag := DW_TAG_const_type, type_ref := 1 }) ]

/-- A variable DIE whose type reference enters the cycle. -/
def cyclicVarDie : Die :=
  { offset := 2, tag := DW_TAG_variable, name := "x", type_ref := 1 }

theorem cyclicEnv_go_none :
    ∀ fuel pre suf, typeNameGo cyclicEnv fuel pre suf 1 = none := by
  intro fuel
  induction fuel with
  | zero => intro pre suf; rfl
  | succ n ih => intro pre suf; exact ih ("const " ++ pre) suf

/-- C2 counterexample: on the cyclic chain the `get_type_name` loop
never produces a result, however many iterations it is allowed — the
code has no visited set, bound, or ReferenceUnresolved bail-out. -/
theorem c2_cyclic_chain_diverges : typeNameDiverges cyclicEnv cyclicVarDie :=
  fun fuel => cyclicEnv_go_none fuel "" ""

theorem typeNameGo_total (env : DwarfEnv)
    (hdec : ∀ p ∈ env, (p.2).type_ref < p.1) :
    ∀ fuel off pre suf, off < fuel →
      ∃ s, typeNameGo env fuel pre suf off = some s := by
  intro fuel
  induction fuel with
  | zero => intro off pre suf h; exact absurd h (Nat.not_lt_zero off)
  | succ n ih =>
    intro off pre suf h
    cases hl : lookupDie env off with
    | none => exact ⟨pre ++ "<unknown>" ++ suf, by simp [typeNameGo, hl]⟩
    | some d =>
      by_cases hname : d.name = ""
      · cases hm : modifierAffix d.tag with
        | none =>
          exact ⟨pre ++ "<anonymous>" ++ suf, by simp [typeNameGo, hl, hname, hm]⟩
        | some m =>
          by_cases hr : d.type_ref = 0
          · exact ⟨m.1 ++ pre ++ "void" ++ (m.2 ++ suf),
              by simp [typeNameGo, hl, hname, hm, hr]⟩
          · have hlt : d.type_ref < off := hdec (off, d) (lookupDie_mem hl)
            have hn : d.type_ref < n :=
              lt_of_lt_of_le hlt (Nat.lt_succ_iff.mp h)
            obtain ⟨s, hs⟩ := ih d.type_ref (m.1 ++ pre) (m.2 ++ suf) hn
            exact ⟨s, by simp [typeNameGo, hl, hname, hm, hr]; exact hs⟩
      · exact ⟨pre ++ d.name ++ suf, by simp [typeNameGo, hl, hname]⟩

/-- C2 amended: the reference walk terminates for every DIE whenever
every DIE's type reference points to a strictly smaller offset — i.e.
when the reference graph is well-founded, which excludes cycles.  On a
cyclic chain of unnamed modifier DIEs the walk never terminates
(`c2` counterexample): the bounded walk with a ReferenceUnresolved
default described by the claim does not exist in the code. -/
theorem c2_amended_terminates_on_decreasing_refs (env : DwarfEnv) (d : Die)
    (hdec : ∀ p ∈ env, (p.2).type_ref < p.1) :
    typeNameTerminates env d := by
  by_cases h0 : d.type_ref = 0
  · exact ⟨0, "void", by simp [get_type_name, h0]⟩
  · obtain ⟨s, hs⟩ :=
      typeNameGo_total env hdec (d.type_ref + 1) d.type_ref "" ""
        (Nat.lt_succ_self _)
    exact ⟨d.type_ref + 1, s, by simp [get_type_name, h0, hs]⟩

/-- Debug data whose references all point strictly downward. -/
def decreasingEnv : DwarfEnv :=
  [ (2, { offset := 2, tag := DW_TAG_const_type, type_ref := 1 }),
    (1, { offset := 1, tag := DW_TAG_base_type, name := "int" }) ]

/-- A variable DIE entering the decreasing chain. -/
def decreasingVarDie : Die :=
  { offset := 5, tag := DW_TAG_variable, name := "y", type_ref := 2 }

theorem c2_amended_witness : typeNameTerminates decreasingEnv decreasingVarDie :=
  c2_amended_terminates_on_decreasing_refs decreasingEnv decreasingVarDie
    (by decide)

/-! ## C3: get_high_pc -/

/-- C3 counterexample: with the end-of-range attribute present in
address form, `get_high_pc` returns the decoded address unchanged, so
the result can be smaller than `low` (here 5 against `low = 0x1000`);
the claimed `result ≥ low` does not hold for the address form. -/
theorem c3_addr_form_can_fall_below_low :
    get_high_pc (some (.addrForm (some 5))) 0x1000 = 5 ∧ ¬ 0x1000 ≤ 5 :=
  ⟨rfl, by decide⟩

/-- C3 amended: the address form returns the decoded address exactly
as stored (with no relation to `low` enforced); a constant form `k`
returns `low + k` in uint64 arithmetic — as in scenario A, where
`low = 0x1000` and `k = 0x40` give `0x1040`; an absent attribute
returns 0. -/
theorem c3_amended_get_high_pc_forms (low a k : Nat) :
    get_high_pc (some (.addrForm (some a))) low = a ∧
      get_high_pc (some (.otherForm (some k))) low = (low + k) % U64 ∧
      get_high_pc none low = 0 ∧
      get_high_pc (some (.otherForm (some 0x40))) 0x1000 = 0x1040 :=
  ⟨rfl, rfl, rfl, by decide⟩

/-! ## C4: the inline check and the declaration flag -/

/-- A subprogram DIE carrying `DW_AT_declaration = true` and
`DW_AT_inline = DW_INL_inlined` (value 1). -/
def inlineDeclaredDie : Die :=
  { offset := 0x40, tag := DW_TAG_subprogram, name := "f",
    is_declaration := true, inline_attr := some 1 }

/-- A subprogram DIE with no declaration flag but
`DW_AT_inline = DW_INL_declared_inlined`. -/
def inlineMarkedDie : Die :=
  { offset := 0x80, tag := DW_TAG_subprogram, name := "g",
    is_declaration := false, inline_attr := some DW_INL_declared_inlined }

/-- C4: the `DW_AT_inline` inspection in `get_functions` does not set a
separate inline flag (`DieInfo` has none); it overwrites
`is_declaration`.  A function declared `DW_AT_declaration = true` with
`DW_AT_inline = DW_INL_inlined` loses its declaration flag, and a
defined function with a declared-inline designation gains one. -/
theorem c4_inline_check_overwrites_declaration_flag :
    inlineDeclaredDie.is_declaration = true ∧
      (mkFunctionInfo inlineDeclaredDie).is_declaration = false ∧
      inlineMarkedDie.is_declaration = false ∧
      (mkFunctionInfo inlineMarkedDie).is_declaration = true :=
  ⟨rfl, rfl, rfl, rfl⟩

/-! ## C5: the variables rows carry no type name or location -/

/-- Debug data for one global variable DIE `g` with a resolvable type
reference to `"int"` and a two-byte expression location. -/
def globalVarEnv : DwarfEnv :=
  [ (3, { offset := 3, tag := DW_TAG_base_type, name := "int" }) ]

/-- The variable DIE `g`. -/
def globalVarDie : Die :=
  { offset := 7, tag := DW_TAG_variable, name := "g", type_ref := 3,
    location_attr := some (.exprBlock [0x91, 0x6c]) }

/-- A compilation unit holding `g` as a direct child of the root. -/
def globalVarTree : DieTree :=
  .node { offset := 5, tag := DW_TAG_compile_unit, name := "a.c" }
    [ .node globalVarDie [] ]

/-- C5: the variables table row for `g` carries only offset, name and
declaration line — its `type` and `location` columns are the empty
string, even though the DIE's type resolves to `"int"` and its
location previews as `"916c"`; `get_variables` never invokes
`get_type_name` or `get_location_string`. -/
theorem c5_variable_rows_lack_type_and_location :
    variablesRows [globalVarTree] =
        [{ id := 7, name := "g", type := "", location := "", line := 0 }] ∧
      get_type_name globalVarEnv 4 globalVarDie = some "int" ∧
      get_location_string globalVarDie.location_attr = "916c" :=
  ⟨rfl, rfl, by decide⟩

/-! ## C6: call sites with unresolvable origins -/

theorem callsGo_append (env : DwarfEnv) (st : Nat × String)
    (xs ys : List (Die × Nat)) :
    callsGo env st (xs ++ ys) =
      callsGo env st xs ++ callsGo env (callsState st xs) ys := by
  induction xs generalizing st with
  | nil => rfl
  | cons e rest ih =>
    obtain ⟨d, dep⟩ := e
    by_cases h1 : d.tag = DW_TAG_subprogram
    · simp [callsGo, callsState, h1, ih]
    · by_cases h2 : d.tag = DW_TAG_call_site ∨ d.tag = DW_TAG_GNU_call_site
      · simp [callsGo, callsState, h1, h2, ih]
      · simp [callsGo, callsState, h1, h2, ih]

/-- C6: a call-site DIE on which neither `DW_AT_call_origin` nor
`DW_AT_abstract_origin` resolves (both references are 0) still yields a
record; its callee offset is 0 and callee name empty, while the caller
offset and name are the tracked state left by the most recently visited
function DIE of the preceding events. -/
theorem c6_unresolved_origin_still_emits (env : DwarfEnv) (st : Nat × String)
    (evs₁ evs₂ : List (Die × Nat)) (d : Die) (dep : Nat)
    (htag : d.tag = DW_TAG_call_site ∨ d.tag = DW_TAG_GNU_call_site)
    (h1 : d.call_origin = 0) (h2 : d.abstract_origin = 0) :
    callsGo env st (evs₁ ++ (d, dep) :: evs₂) =
      callsGo env st evs₁
        ++ ({ caller_offset := (callsState st evs₁).1
              caller_name := (callsState st evs₁).2
              callee_offset := 0
              callee_name := ""
              call_pc := if d.call_return_pc ≠ 0 then d.call_return_pc else d.low_pc
              call_line := d.call_line
              is_tail_call := d.is_tail_call } : CallInfo)
          :: callsGo env (callsState st evs₁) evs₂ := by
  rw [callsGo_append]
  have hsub : ¬ d.tag = DW_TAG_subprogram := by
    rcases htag with h | h <;>
      simp [h, DW_TAG_call_site, DW_TAG_GNU_call_site, DW_TAG_subprogram]
  simp [callsGo, hsub, htag, mkCallInfo, h1, h2]

/-- The function DIE `main` of the C6 witness scenario. -/
def c6FuncDie : Die :=
  { offset := 0x30, tag := DW_TAG_subprogram, name := "main" }

/-- A call-site DIE with no origin references at all. -/
def c6CallSiteDie : Die :=
  { offset := 0x38, tag := DW_TAG_call_site, call_line := 12 }

theorem c6_witness :
    (c6CallSiteDie.tag = DW_TAG_call_site ∨
        c6CallSiteDie.tag = DW_TAG_GNU_call_site) ∧
      c6CallSiteDie.call_origin = 0 ∧
      c6CallSiteDie.abstract_origin = 0 ∧
      callsGo [] (0, "") ([(c6FuncDie, 1)] ++ (c6CallSiteDie, 2) :: []) =
        callsGo [] (0, "") [(c6FuncDie, 1)]
          ++ ({ caller_offset := (callsState (0, "") [(c6FuncDie, 1)]).1
                caller_name := (callsState (0, "") [(c6FuncDie, 1)]).2
                callee_offset := 0
                callee_name := ""
                call_pc :=
                  if c6CallSiteDie.call_return_pc ≠ 0 then
                    c6CallSiteDie.call_return_pc
                  else c6CallSiteDie.low_pc
                call_line := c6CallSiteDie.call_line
                is_tail_call := c6CallSiteDie.is_tail_call } : CallInfo)
            :: callsGo [] (callsState (0, "") [(c6FuncDie, 1)]) [] :=
  ⟨Or.inl rfl, rfl, rfl,
    c6_unresolved_origin_still_emits [] (0, "") [(c6FuncDie, 1)] [] c6CallSiteDie 2
      (Or.inl rfl) rfl rfl⟩

/-! ## C7: unit-level variables never reach the LocalVariables output -/

/-- C7: inserting a `DW_TAG_variable` event at depth ≤ 1 (the unit
root or one of its direct children) anywhere into the event stream
leaves the `get_local_variables` visitor's output unchanged: no record
is emitted for such a DIE, whatever the surrounding events, scope
state, and function filter. -/
theorem c7_unit_level_variable_not_emitted (env : DwarfEnv) (fuel : Nat)
    (func_filter : Int) (st : Nat × Nat × Nat) (evs₁ evs₂ : List (Die × Nat))
    (v : Die) (dep : Nat) (hv : v.tag = DW_TAG_variable) (hdep : dep ≤ 1) :
    localVarsGo env fuel func_filter st (evs₁ ++ (v, dep) :: evs₂) =
      localVarsGo env fuel func_filter st (evs₁ ++ evs₂) := by
  induction evs₁ generalizing st with
  | nil =>
    have hA : ¬ (v.tag = DW_TAG_subprogram ∨ v.tag = DW_TAG_lexical_block) := by
      simp [hv, DW_TAG_variable, DW_TAG_subprogram, DW_TAG_lexical_block]
    have hB : ¬ 1 < dep := by omega
    simp [localVarsGo, hA, hB]
  | cons e rest ih =>
    obtain ⟨d, dd⟩ := e
    by_cases hA : d.tag = DW_TAG_subprogram ∨ d.tag = DW_TAG_lexical_block
    · simp [localVarsGo, hA, ih]
    · by_cases hB : d.tag = DW_TAG_variable ∧ 1 < dd ∧
          (func_filter < 0 ∨ (st.1 : Int) = func_filter)
      · simp [localVarsGo, hA, hB, ih]
      · simp [localVarsGo, hA, hB, ih]

/-- A variable DIE sitting directly under a unit root. -/
def unitLevelVarDie : Die :=
  { offset := 9, tag := DW_TAG_variable, name := "global" }

theorem c7_witness :
    unitLevelVarDie.tag = DW_TAG_variable ∧ (1 : Nat) ≤ 1 ∧
      localVarsGo [] 0 (-1) (0, 0, 0) ([] ++ (unitLevelVarDie, 1) :: []) =
        localVarsGo [] 0 (-1) (0, 0, 0) ([] ++ []) :=
  ⟨rfl, by decide,
    c7_unit_level_variable_not_emitted [] 0 (-1) (0, 0, 0) [] [] unitLevelVarDie 1
      rfl (by decide)⟩

/-! ## C8: declaration-only structs contribute no member rows -/

/-- C8: when struct offsets are pairwise distinct (they are DIE
offsets, unique within a session), no struct_members row points at a
struct record whose declaration flag is set: such structs are skipped
before the member walk. -/
theorem c8_declaration_structs_contribute_no_member_rows
    (structs : List DieInfo) (memberOf : Nat → List DieInfo) (s : DieInfo)
    (hs : s ∈ structs) (hdecl : s.is_declaration = true)
    (huniq : (structs.map DieInfo.offset).Nodup) :
    ∀ r ∈ structMembersRows structs memberOf, r.struct_id ≠ s.offset := by
  intro r hr
  rw [structMembersRows, List.mem_flatMap] at hr
  obtain ⟨t, ht, hrt⟩ := hr
  by_cases hd : t.is_declaration
  · simp [hd] at hrt
  · simp only [hd, if_false, Bool.false_eq_true] at hrt
    rw [List.mem_map] at hrt
    obtain ⟨m, hm, rfl⟩ := hrt
    intro hEq
    have hoff : t.offset = s.offset := hEq
    have hts : t = s :=
      List.inj_on_of_nodup_map huniq ht hs hoff
    rw [hts] at hd
    exact hd hdecl

/-- Witness structs: a declaration-only `Node` at offset 1 and a
defined `Node` at offset 2 with one member. -/
def declStructInfo : DieInfo :=
  { offset := 1, tag := DW_TAG_structure_type, name := "Node",
    is_declaration := true }

/-- The defined counterpart at offset 2. -/
def defStructInfo : DieInfo :=
  { offset := 2, tag := DW_TAG_structure_type, name := "Node" }

/-- Member table for the witness: only offset 2 has a member. -/
def c8MemberOf : Nat → List DieInfo := fun off =>
  if off = 2 then [{ offset := 3, tag := DW_TAG_member, name := "next" }] else []

theorem c8_witness :
    declStructInfo ∈ [declStructInfo, defStructInfo] ∧
      declStructInfo.is_declaration = true ∧
      (([declStructInfo, defStructInfo].map DieInfo.offset).Nodup) ∧
      ∀ r ∈ structMembersRows [declStructInfo, defStructInfo] c8MemberOf,
        r.struct_id ≠ declStructInfo.offset :=
  ⟨List.mem_cons_self _ _, rfl, by decide,
    c8_declaration_structs_contribute_no_member_rows
      [declStructInfo, defStructInfo] c8MemberOf declStructInfo
      (List.mem_cons_self _ _) rfl (by decide)⟩

/-! ## C9: the structs kind column -/

/-- C9: every record emitted by `get_structs` carries one of the three
tags that pass its filter, and the `kind` column computed for it hits
one of the three named switch branches (structure → `"struct"`,
class → `"class"`, union → `"union"`); the `default:` branch of the
switch is unreachable on `get_structs` output. -/
theorem c9_struct_kind_determined_by_tag (cu_filter : Int)
    (cus : List DieTree) (s : DieInfo) (hs : s ∈ get_structs cu_filter cus) :
    (s.tag = DW_TAG_structure_type ∨ s.tag = DW_TAG_class_type ∨
        s.tag = DW_TAG_union_type) ∧
      (mkStructRow s).kind =
        (if s.tag = DW_TAG_structure_type then "struct"
         else if s.tag = DW_TAG_class_type then "class" else "union") := by
  have htag : s.tag = DW_TAG_structure_type ∨ s.tag = DW_TAG_class_type ∨
      s.tag = DW_TAG_union_type := by
    rw [get_structs, List.mem_flatten] at hs
    obtain ⟨l, hl, hsl⟩ := hs
    rw [List.mem_map] at hl
    obtain ⟨t, _, rfl⟩ := hl
    by_cases hskip : cu_filter ≥ 0 ∧ (((rootDie t).offset : Int) ≠ cu_filter)
    · simp [hskip] at hsl
    · rw [if_neg hskip, structsGo, List.mem_filterMap] at hsl
      obtain ⟨e, _, he⟩ := hsl
      by_cases hc : e.1.tag = DW_TAG_structure_type ∨ e.1.tag = DW_TAG_class_type ∨
          e.1.tag = DW_TAG_union_type
      · rw [if_pos hc, Option.some_inj] at he
        rw [← he]
        exact hc
      · rw [if_neg hc] at he
        exact absurd he (by simp)
  refine ⟨htag, ?_⟩
  rcases htag with h | h | h <;>
    simp [mkStructRow, structKindOfTag, h, DW_TAG_structure_type,
      DW_TAG_class_type, DW_TAG_union_type]

/-- A union DIE for the C9 witness. -/
def unionDie : Die :=
  { offset := 6, tag := DW_TAG_union_type, name := "U", byte_size := 8 }

/-- A unit containing the union DIE. -/
def unionTree : DieTree :=
  .node { offset := 5, tag := DW_TAG_compile_unit, name := "u.c" }
    [ .node unionDie [] ]

theorem c9_witness :
    mkStructInfo unionDie ∈ get_structs (-1) [unionTree] ∧
      ((mkStructInfo unionDie).tag = DW_TAG_structure_type ∨
        (mkStructInfo unionDie).tag = DW_TAG_class_type ∨
        (mkStructInfo unionDie).tag = DW_TAG_union_type) ∧
      (mkStructRow (mkStructInfo unionDie)).kind =
        (if (mkStructInfo unionDie).tag = DW_TAG_structure_type then "struct"
         else if (mkStructInfo unionDie).tag = DW_TAG_class_type then "class"
         else "union") :=
  ⟨by decide,
    (c9_struct_kind_determined_by_tag (-1) [unionTree] (mkStructInfo unionDie)
      (by decide)).1,
    (c9_struct_kind_determined_by_tag (-1) [unionTree] (mkStructInfo unionDie)
      (by decide)).2⟩

/-! ## C10: current_func in get_variables persists across functions and units -/

theorem varsGo_append (func_filter : Int) (cur : Nat) (xs ys : List (Die × Nat)) :
    varsGo func_filter cur (xs ++ ys) =
      varsGo func_filter cur xs ++ varsGo func_filter (lastFunc cur xs) ys := by
  induction xs generalizing cur with
  | nil => rfl
  | cons e rest ih =>
    obtain ⟨d, dep⟩ := e
    simp only [List.cons_append, varsGo, lastFunc]
    split <;> split <;> simp [ih]

theorem variablesLoop_flatten (func_filter : Int) (cur : Nat)
    (cus : List DieTree) :
    variablesLoop (-1) func_filter cur cus =
      varsGo func_filter cur (cus.map (fun t => preorder t 0)).flatten := by
  induction cus generalizing cur with
  | nil => rfl
  | cons t ts ih =>
    have hskip : ¬ ((-1 : Int) ≥ 0 ∧ (((rootDie t).offset : Int) ≠ -1)) := by
      simp
    rw [variablesLoop, if_neg hskip, List.map_cons, List.flatten_cons,
      varsGo_append, ih]

/-- C10: `current_func` is initialized to 0 once, before the unit loop
of `get_variables`, and never reset afterwards.  Consequently, for any
variable or formal-parameter DIE anywhere in the overall traversal —
across function ends and compilation-unit boundaries — the function
filter is matched against `lastFunc 0` of all preceding events: the
offset of the most recently visited function DIE, in overall traversal
order, or 0 only when no function DIE has been visited yet. -/
theorem c10_current_func_persists_across_units (func_filter : Int)
    (cus : List DieTree) (evs₁ evs₂ : List (Die × Nat)) (v : Die) (dep : Nat)
    (hv : v.tag = DW_TAG_variable ∨ v.tag = DW_TAG_formal_parameter)
    (hsplit : (cus.map (fun t => preorder t 0)).flatten = evs₁ ++ (v, dep) :: evs₂) :
    get_variables (-1) func_filter cus =
      varsGo func_filter 0 evs₁
        ++ (if func_filter < 0 ∨ ((lastFunc 0 evs₁ : Nat) : Int) = func_filter
            then [mkVariableInfo v] else [])
        ++ varsGo func_filter (lastFunc 0 evs₁) evs₂ := by
  have hsub : ¬ v.tag = DW_TAG_subprogram := by
    rcases hv with h | h <;>
      simp [h, DW_TAG_variable, DW_TAG_formal_parameter, DW_TAG_subprogram]
  rw [get_variables, variablesLoop_flatten, hsplit, varsGo_append]
  by_cases hcond : func_filter < 0 ∨ ((lastFunc 0 evs₁ : Nat) : Int) = func_filter
  · simp [varsGo, hsub, hv, hcond]
  · simp [varsGo, hsub, hv, hcond]

/-- First unit of the C10 witness: its root holds the function `f` at
offset 10. -/
def c10UnitOne : DieTree :=
  .node { offset := 1, tag := DW_TAG_compile_unit, name := "one.c" }
    [ .node { offset := 10, tag := DW_TAG_subprogram, name := "f" } [] ]

/-- Second unit of the C10 witness: its root holds a unit-level global
variable `g`. -/
def c10UnitTwo : DieTree :=
  .node { offset := 20, tag := DW_TAG_compile_unit, name := "two.c" }
    [ .node { offset := 21, tag := DW_TAG_variable, name := "g" } [] ]

/-- The global `g` of the second witness unit. -/
def c10VarDie : Die := { offset := 21, tag := DW_TAG_variable, name := "g" }

/-- The three events preceding `g` in the overall traversal. -/
def c10Prefix : List (Die × Nat) :=
  [ ({ offset := 1, tag := DW_TAG_compile_unit, name := "one.c" }, 0),
    ({ offset := 10, tag := DW_TAG_subprogram, name := "f" }, 1),
    ({ offset := 20, tag := DW_TAG_compile_unit, name := "two.c" }, 0) ]

theorem c10_witness :
    (c10VarDie.tag = DW_TAG_variable ∨ c10VarDie.tag = DW_TAG_formal_parameter) ∧
      ([c10UnitOne, c10UnitTwo].map (fun t => preorder t 0)).flatten =
        c10Prefix ++ (c10VarDie, 1) :: [] ∧
      get_variables (-1) 10 [c10UnitOne, c10UnitTwo] =
        varsGo 10 0 c10Prefix
          ++ (if (10 : Int) < 0 ∨ ((lastFunc 0 c10Prefix : Nat) : Int) = 10
              then [mkVariableInfo c10VarDie] else [])
          ++ varsGo 10 (lastFunc 0 c10Prefix) [] :=
  ⟨Or.inl rfl, rfl,
    c10_current_func_persists_across_units 10 [c10UnitOne, c10UnitTwo]
      c10Prefix [] c10VarDie 1 (Or.inl rfl) rfl⟩

end DwarfSql
